import Mathlib

/-!
Verification of the derived-transit-event engine ("calendar automaton").

This file gives a shallow embedding, in Lean 4, of the engine's data model
and operations, translated from the TypeScript sources
(`eventProcessor.ts`, `utils.ts`, `transitCalculator.ts`, `config.ts`,
`types.ts`), and proves or refutes the specification's claims about them.

Modelling conventions:
- JavaScript strings are Lean `String`; a field that may be `undefined`
  is `Option`; JavaScript truthiness of an optional string
  (`undefined` and `""` are falsy) is the `truthy` predicate below.
- `Date` values are modelled as `Int` milliseconds since the epoch
  (all the code does with them is compare and add/subtract minutes).
- Blocking I/O (the route oracle, the walking-time oracle, date
  parsing/formatting of the host) is modelled by passing the outcome of
  each call (or the host function) as an explicit argument, so every
  definition is a pure, executable function of its inputs.
- TypeScript `throw` is modelled with `Except`: `JsError.routesApi`
  is a thrown `RoutesApiError`, `JsError.other` any other thrown value
  (e.g. the plain `Error` of `validateAddress`).
-/

set_option maxRecDepth 4000

-- ===========================================================================
-- Configuration constants (config.ts)
-- ===========================================================================

def VIDEO_CALL_KEYWORDS : List String := ["zoom.us", "meet.google", "teams.microsoft", "webex"]

def FLIGHT_KEYWORDS : List String :=
  ["flight to", "flight from", "ua ", "aa ", "dl ", "b6 ",
   "united", "american", "delta", "jetblue", "southwest"]

def STAY_KEYWORDS : List String := ["stay:", "stay at", "hotel", "airbnb", "vrbo", "accommodation"]

def DEFAULT_HOME_AIRPORTS : List String := ["ewr", "jfk", "lga", "newark", "kennedy", "laguardia"]

def MIN_TRIP_MINUTES : Nat := 4

def SHORT_TRIP_THRESHOLD_MINUTES : Nat := 10

def MAX_TRANSIT_MINUTES : Nat := 180

def MAX_WALKABLE_MINUTES : Nat := 15

def TRANSIT_FALLBACK_THRESHOLD : Nat := 80

def SECONDS_PER_MINUTE : Nat := 60

/-- `MILLISECONDS_PER_MINUTE` as an `Int`, since it is only used in
`Date` (millisecond) arithmetic. -/
def MILLISECONDS_PER_MINUTE : Int := 60 * 1000

def ROUTES_API_TIMEOUT_MS : Nat := 10000

def DEFAULT_TIMEZONE : String := "America/New_York"

-- ===========================================================================
-- JavaScript string semantics helpers
-- ===========================================================================

/-- JavaScript truthiness of an optional string: `undefined` and `""` are
falsy, every other string is truthy. -/
def truthy (o : Option String) : Bool :=
  match o with
  | none => false
  | some s => !s.isEmpty

/-- JavaScript `o || d` on an optional string: the string if truthy,
otherwise the default. -/
def jsOrStr (o : Option String) (d : String) : String :=
  match o with
  | none => d
  | some s => if s.isEmpty then d else s

/-- JavaScript `haystack.includes(needle)`: substring containment. -/
def strContains (haystack needle : String) : Bool :=
  let hs := haystack.toList
  let ns := needle.toList
  (List.range (hs.length + 1)).any (fun i => ns.isPrefixOf (hs.drop i))

/-- ASCII lower-casing of one character (the strings the engine
compares are ASCII addresses and keywords). -/
def charToLower (c : Char) : Char :=
  if 65 ≤ c.toNat ∧ c.toNat ≤ 90 then Char.ofNat (c.toNat + 32) else c

/-- `s.toLowerCase()`, character by character. -/
def toLowerStr (s : String) : String :=
  ⟨s.toList.map charToLower⟩

/-- Whitespace stripped by `trim` (ASCII whitespace suffices for the
addresses the engine handles). -/
def isWs (c : Char) : Bool :=
  c = ' ' || c = '\t' || c = '\n' || c = '\r'

/-- `s.trim()`: strip leading and trailing whitespace. -/
def trimStr (s : String) : String :=
  ⟨((s.toList.dropWhile isWs).reverse.dropWhile isWs).reverse⟩

-- ===========================================================================
-- Data model (types.ts)
-- ===========================================================================

/-- `start`/`end` field of a Google Calendar event: a precise timestamp
(`dateTime`), or an all-day marker (`date`), with an optional timezone. -/
structure EventDateTime where
  dateTime : Option String
  date : Option String
  timeZone : Option String
deriving Repr, DecidableEq

/-- A source calendar event. `end` is modelled as optional because the
code consistently accesses it with optional chaining (`event.end?.…`).
`conferenceData` is a presence flag (the code only tests its truthiness). -/
structure CalendarEvent where
  id : String
  summary : Option String
  location : Option String
  start : EventDateTime
  «end» : Option EventDateTime
  colorId : Option String
  conferenceData : Bool
  description : Option String
deriving Repr, DecidableEq

/-- User settings. `lowTransitLocations` defaults to `[]`, which behaves
identically to `undefined` at every use site; `homeAirports` is kept
optional because it is read with JavaScript `||` (an empty list is truthy). -/
structure UserSettings where
  homeAddress : String
  daysForward : Nat
  transitColorId : String
  lowTransitLocations : List String
  homeAirports : Option (List String)
  detectTrips : Bool
deriving Repr, DecidableEq

/-- Travel modes occurring in the code: `RouteResult.mode` is
`transit`/`driving`, validator and override modes are `drive`/`walk`. -/
inductive TravelMode where
  | transit
  | driving
  | drive
  | walk
deriving Repr, DecidableEq

/-- Result from the Routes API, produced by `createRouteResult`. -/
structure RouteResult where
  durationMinutes : Nat
  distanceMeters : Nat
  mode : TravelMode
deriving Repr, DecidableEq

/-- Skip reasons (`SkipReason` enum). -/
inductive SkipReason where
  | NO_LOCATION
  | ALREADY_TRANSIT_EVENT
  | HOLD_EVENT
  | VIDEO_CALL_CONFERENCE
  | VIDEO_CALL_KEYWORD
  | OVERNIGHT_EVENT
  | ALL_DAY_EVENT
deriving Repr, DecidableEq

/-- String value of a `SkipReason` enum member (used in log messages). -/
def skipReasonText (r : Option SkipReason) : String :=
  match r with
  | none => ""
  | some SkipReason.NO_LOCATION => "no_location"
  | some SkipReason.ALREADY_TRANSIT_EVENT => "already_transit_event"
  | some SkipReason.HOLD_EVENT => "hold_event"
  | some SkipReason.VIDEO_CALL_CONFERENCE => "video_call_conference"
  | some SkipReason.VIDEO_CALL_KEYWORD => "video_call_keyword"
  | some SkipReason.OVERNIGHT_EVENT => "overnight_event"
  | some SkipReason.ALL_DAY_EVENT => "all_day_event"

/-- `SkipResult`; `reason = none` models the TS empty-string reason. -/
structure SkipResult where
  shouldSkip : Bool
  reason : Option SkipReason
deriving Repr, DecidableEq

/-- Context carried by a `RoutesApiError`. -/
structure RouteContext where
  origin : String
  destination : String
  travelMode : String
deriving Repr, DecidableEq

/-- Data of a thrown `RoutesApiError`. -/
structure RoutesApiErrorData where
  message : String
  statusCode : Nat
  isTransient : Bool
  context : Option RouteContext
deriving Repr, DecidableEq

/-- A thrown JavaScript exception: a `RoutesApiError`, or any other error
(such as the plain `Error` thrown by `validateAddress`). -/
inductive JsError where
  | routesApi (e : RoutesApiErrorData)
  | other (message : String)
deriving Repr, DecidableEq

/-- A synthesized transit event (`TransitEvent`). -/
structure TransitEventTime where
  dateTime : String
  timeZone : String
deriving Repr, DecidableEq

structure TransitEvent where
  summary : String
  location : String
  colorId : String
  start : TransitEventTime
  «end» : TransitEventTime
  description : String
deriving Repr, DecidableEq

-- ===========================================================================
-- Utilities (utils.ts)
-- ===========================================================================

/-- `getLocationName`: text before the first comma
(`location.split(",")[0]`), trimmed; falls back to the whole location
when that is empty. -/
def getLocationName (location : String) : String :=
  let first := trimStr ⟨location.toList.takeWhile (fun c => c ≠ ',')⟩
  if first.isEmpty then location else first

/-- `isSameLocation`: case-insensitive, whitespace-trimmed equality. -/
def isSameLocation (loc1 loc2 : String) : Bool :=
  trimStr (toLowerStr loc1) == trimStr (toLowerStr loc2)

/-- Value of a decimal digit character. -/
def digitVal (c : Char) : Nat := c.toNat - 48

/-- Helper for `getHourFromDateTime`: scan for the first occurrence of
`T` followed by two digits and `:` (the regex `/T(\d\x7b2\x7d):/`). -/
def scanHour : List Char → Option Nat
  | [] => none
  | c :: rest =>
    match c, rest with
    | 'T', a :: b :: ':' :: _ =>
      if a.isDigit && b.isDigit then some (digitVal a * 10 + digitVal b)
      else scanHour rest
    | _, _ => scanHour rest

/-- `getHourFromDateTime`: the hour matched by `/T(\d\x7b2\x7d):/`,
or `none` when the string has no such time component. -/
def getHourFromDateTime (dateTimeStr : String) : Option Nat :=
  scanHour dateTimeStr.toList

/-- `parseDurationSeconds`: parse `"1800s"`-style durations (regex
`^(\d+)s$`). The TS function throws on a mismatch; this model returns
`none`, and the call site in `callRoutesApi` turns that into the
wrapped error the surrounding `catch` would produce. -/
def parseDurationSeconds (durationStr : String) : Option Nat :=
  let cs := durationStr.toList
  match cs.getLast? with
  | some 's' =>
    let ds := cs.dropLast
    if ds ≠ [] ∧ ds.all Char.isDigit then
      some (ds.foldl (fun acc c => acc * 10 + digitVal c) 0)
    else none
  | _ => none

/-- `toMinutes`: seconds to minutes, rounding up
(`Math.ceil(seconds / SECONDS_PER_MINUTE)` on a natural number). -/
def toMinutes (seconds : Nat) : Nat :=
  (seconds + (SECONDS_PER_MINUTE - 1)) / SECONDS_PER_MINUTE

-- ===========================================================================
-- Event filtering (eventProcessor.ts, shouldSkipEvent)
-- ===========================================================================

/-- Overnight test of `shouldSkipEvent`: the event has a truthy precise
start whose matched hour lies in `[0, 6)`. (`hour >= 0` is automatic for
a two-digit match.) -/
def overnightCheck (event : CalendarEvent) : Bool :=
  if truthy event.start.dateTime then
    match getHourFromDateTime (event.start.dateTime.getD "") with
    | some hour => decide (hour < 6)
    | none => false
  else false

/-- `shouldSkipEvent`: first-match-wins filter deciding whether an event
participates in transit calculation. -/
def shouldSkipEvent (event : CalendarEvent) (settings : UserSettings) : SkipResult :=
  if ¬ truthy event.location then
    { shouldSkip := true, reason := some SkipReason.NO_LOCATION }
  else if event.colorId = some settings.transitColorId then
    { shouldSkip := true, reason := some SkipReason.ALREADY_TRANSIT_EVENT }
  else if event.colorId = some "8" then
    { shouldSkip := true, reason := some SkipReason.HOLD_EVENT }
  else if event.conferenceData then
    { shouldSkip := true, reason := some SkipReason.VIDEO_CALL_CONFERENCE }
  else if VIDEO_CALL_KEYWORDS.any (fun kw => strContains (toLowerStr (event.location.getD "")) kw) then
    { shouldSkip := true, reason := some SkipReason.VIDEO_CALL_KEYWORD }
  else if overnightCheck event then
    { shouldSkip := true, reason := some SkipReason.OVERNIGHT_EVENT }
  else if truthy event.start.date && ¬ truthy event.start.dateTime then
    { shouldSkip := true, reason := some SkipReason.ALL_DAY_EVENT }
  else
    { shouldSkip := false, reason := none }

-- ===========================================================================
-- Route oracle client (transitCalculator.ts)
-- ===========================================================================

/-- A raw route as returned by `callRoutesApi`. -/
structure RawRoute where
  durationSeconds : Nat
  distanceMeters : Nat
deriving Repr, DecidableEq

/-- `createRouteResult`: build a `RouteResult` from raw API data. -/
def createRouteResult (durationSeconds distanceMeters : Nat) (mode : TravelMode) : RouteResult :=
  { durationMinutes := toMinutes durationSeconds
    distanceMeters := distanceMeters
    mode := mode }

/-- `selectBestRoute`: compare transit and driving; `none` only when both
inputs are `none`. -/
def selectBestRoute (transitResult driveResult : Option RawRoute) : Option RouteResult :=
  match transitResult, driveResult with
  | none, none => none
  | none, some d => some (createRouteResult d.durationSeconds d.distanceMeters TravelMode.driving)
  | some t, none => some (createRouteResult t.durationSeconds t.distanceMeters TravelMode.transit)
  | some t, some d =>
    let transitMinutes := toMinutes t.durationSeconds
    let driveMinutes := toMinutes d.durationSeconds
    if transitMinutes ≤ TRANSIT_FALLBACK_THRESHOLD then
      some (createRouteResult t.durationSeconds t.distanceMeters TravelMode.transit)
    else if driveMinutes < transitMinutes then
      some (createRouteResult d.durationSeconds d.distanceMeters TravelMode.driving)
    else
      some (createRouteResult t.durationSeconds t.distanceMeters TravelMode.transit)

/-- Travel mode of one `callRoutesApi` request. -/
inductive ApiTravelMode where
  | TRANSIT
  | DRIVE
  | WALK
deriving Repr, DecidableEq

def modeString (m : ApiTravelMode) : String :=
  match m with
  | ApiTravelMode.TRANSIT => "TRANSIT"
  | ApiTravelMode.DRIVE => "DRIVE"
  | ApiTravelMode.WALK => "WALK"

/-- Shape of the Routes API JSON body used by the client. -/
structure ApiErrorBody where
  message : Option String
deriving Repr, DecidableEq

structure RouteJson where
  duration : Option String
  distanceMeters : Option Nat
deriving Repr, DecidableEq

structure RoutesApiResponse where
  routes : Option (List RouteJson)
  error : Option ApiErrorBody
deriving Repr, DecidableEq

/-- Outcome of the `fetch` inside `callRoutesApi`:
an HTTP response with a status and parsed JSON body, the `AbortError`
raised when the `ROUTES_API_TIMEOUT_MS` timer fires, or any other
exception rejected by `fetch` (DNS failure, connection reset, a
`response.json()` parse failure, …). -/
inductive FetchOutcome where
  | response (status : Nat) (body : RoutesApiResponse)
  | abortError
  | networkError (message : String)
deriving Repr, DecidableEq

/-- `callRoutesApi`: one Routes API call, given the outcome of its
`fetch`. Validates the addresses (throwing a plain `Error` on an empty
one), classifies HTTP and transport failures as `RoutesApiError`s, and
returns `none` when the API succeeds but reports no viable route.
The `parseDurationSeconds` throw inside the `try` is wrapped by the
`catch` into the transient "network error" `RoutesApiError`. -/
def callRoutesApi (origin destination : String) (travelMode : ApiTravelMode)
    (outcome : FetchOutcome) : Except JsError (Option RawRoute) :=
  if (trimStr origin).isEmpty then
    Except.error (JsError.other "Origin address cannot be empty")
  else if (trimStr destination).isEmpty then
    Except.error (JsError.other "Destination address cannot be empty")
  else
    let origin := trimStr origin
    let destination := trimStr destination
    let context : RouteContext :=
      { origin := origin, destination := destination, travelMode := modeString travelMode }
    match outcome with
    | FetchOutcome.response status body =>
      if ¬ (200 ≤ status ∧ status ≤ 299) then
        Except.error (JsError.routesApi
          { message := "Routes API error (" ++ toString status ++ "): " ++
              jsOrStr (body.error.bind (fun e => e.message)) "Unknown error"
            statusCode := status
            isTransient := decide (500 ≤ status)
            context := some context })
      else
        match body.routes with
        | none => Except.ok none
        | some [] => Except.ok none
        | some (route :: _) =>
          if ¬ truthy route.duration then Except.ok none
          else
            match parseDurationSeconds (route.duration.getD "") with
            | some durationSeconds =>
              Except.ok (some { durationSeconds := durationSeconds
                                distanceMeters := route.distanceMeters.getD 0 })
            | none =>
              Except.error (JsError.routesApi
                { message := "Routes API network error: Invalid duration format: " ++
                    route.duration.getD ""
                  statusCode := 0
                  isTransient := true
                  context := some context })
    | FetchOutcome.abortError =>
      Except.error (JsError.routesApi
        { message := "Routes API request timed out after " ++ toString ROUTES_API_TIMEOUT_MS ++ "ms"
          statusCode := 0
          isTransient := true
          context := some context })
    | FetchOutcome.networkError msg =>
      Except.error (JsError.routesApi
        { message := "Routes API network error: " ++ msg
          statusCode := 0
          isTransient := true
          context := some context })

/-- `getTransitTime`: transit-then-driving policy. The two arguments
`transitCall` and `driveCall` are the outcomes of the `TRANSIT` and
`DRIVE` calls to `callRoutesApi`; the returned `Bool` records whether
the `DRIVE` call was actually performed (it is `false` exactly on the
path that returns transit without ever querying driving). -/
def getTransitTime (forceDrive : Bool)
    (transitCall driveCall : Except JsError (Option RawRoute)) :
    Except JsError (Option RouteResult × Bool) :=
  if forceDrive then
    match driveCall with
    | Except.error e => Except.error e
    | Except.ok (some d) =>
      Except.ok (some (createRouteResult d.durationSeconds d.distanceMeters TravelMode.driving), true)
    | Except.ok none => Except.ok (none, true)
  else
    match transitCall with
    | Except.error e => Except.error e
    | Except.ok (some transitResult) =>
      if toMinutes transitResult.durationSeconds ≤ TRANSIT_FALLBACK_THRESHOLD then
        Except.ok (some (createRouteResult transitResult.durationSeconds
          transitResult.distanceMeters TravelMode.transit), false)
      else
        match driveCall with
        | Except.error e => Except.error e
        | Except.ok driveResult => Except.ok (selectBestRoute (some transitResult) driveResult, true)
    | Except.ok none =>
      match driveCall with
      | Except.error e => Except.error e
      | Except.ok (some d) =>
        Except.ok (some (createRouteResult d.durationSeconds d.distanceMeters TravelMode.driving), true)
      | Except.ok none => Except.ok (none, true)

/-- `getWalkingTime`: walking duration in minutes, from the outcome of
the single `WALK` call. -/
def getWalkingTime (walkCall : Except JsError (Option RawRoute)) : Except JsError (Option Nat) :=
  match walkCall with
  | Except.error e => Except.error e
  | Except.ok (some result) => Except.ok (some (toMinutes result.durationSeconds))
  | Except.ok none => Except.ok none

-- ===========================================================================
-- Low-transit locations and trip-duration validation (eventProcessor.ts)
-- ===========================================================================

/-- `isLowTransitLocation`: case-insensitive substring match of the
address against each configured pattern. -/
def isLowTransitLocation (address : String) (lowTransitLocations : List String) : Bool :=
  lowTransitLocations.any (fun pattern => strContains (toLowerStr address) (toLowerStr pattern))

/-- `TripValidationResult`:
`invalid reason`, or `valid mode walkMinutes` where
`valid none none` is the plain "accept as-is" result,
`valid (some drive) none` an explicit drive leg and
`valid (some walk) (some w)` a walking leg of `w` minutes. -/
inductive TripValidationResult where
  | invalid (reason : String)
  | valid (mode : Option TravelMode) (walkMinutes : Option Nat)
deriving Repr, DecidableEq

/-- `isValidTripDuration`: tiered duration policy. `walkQuery` is the
outcome of the `getWalkingTime(origin, destination)` call the function
makes in the short-trip zone; the surrounding `try/catch` turns any
thrown error into "accept as drive". -/
def isValidTripDuration (driveDurationMin : Nat) (origin destination : String)
    (lowTransitLocations : List String) (walkQuery : Except JsError (Option Nat)) :
    TripValidationResult :=
  if driveDurationMin > MAX_TRANSIT_MINUTES then
    TripValidationResult.invalid ("too long (" ++ toString driveDurationMin ++ " min)")
  else if driveDurationMin ≥ SHORT_TRIP_THRESHOLD_MINUTES then
    TripValidationResult.valid none none
  else if driveDurationMin < MIN_TRIP_MINUTES then
    TripValidationResult.invalid ("too short (" ++ toString driveDurationMin ++ " min)")
  else if isLowTransitLocation origin lowTransitLocations ||
      isLowTransitLocation destination lowTransitLocations then
    TripValidationResult.valid (some TravelMode.drive) none
  else
    match walkQuery with
    | Except.error _ => TripValidationResult.valid (some TravelMode.drive) none
    | Except.ok none => TripValidationResult.valid (some TravelMode.drive) none
    | Except.ok (some walkTime) =>
      if walkTime > MAX_WALKABLE_MINUTES then
        TripValidationResult.valid (some TravelMode.drive) none
      else if walkTime ≥ MIN_TRIP_MINUTES then
        TripValidationResult.valid (some TravelMode.walk) (some walkTime)
      else
        TripValidationResult.invalid ("too short to track (" ++ toString walkTime ++ " min walk)")

-- ===========================================================================
-- Overlap detection (eventProcessor.ts, overlapsExistingTransit)
-- ===========================================================================

/-- `overlapsExistingTransit`: does the candidate span `[start, endT)`
intersect an existing transit-tagged event? `parseDT` is the host's
`parseDateTime` (ISO string to epoch milliseconds). The `for` loop with
`continue` guards is rendered as `List.any` over the same conditions:
matching `colorId`, truthy precise start and end, and
`start < eventEnd && endT > eventStart`. -/
def overlapsExistingTransit (parseDT : String → Int) (start endT : Int)
    (events : List CalendarEvent) (transitColorId : String) : Bool :=
  events.any (fun event =>
    decide (event.colorId = some transitColorId) &&
    truthy event.start.dateTime &&
    truthy (event.«end».bind (fun x => x.dateTime)) &&
    decide (start < parseDT ((event.«end».bind (fun x => x.dateTime)).getD "")) &&
    decide (endT > parseDT (event.start.dateTime.getD "")))
-- ===========================================================================
-- Calendar date arithmetic (model of JavaScript Date on YYYY-MM-DD strings)
-- ===========================================================================

/-- Number of days in a month (with the Gregorian leap rule), for
validating `new Date("YYYY-MM-DD")`, which rejects out-of-range
components in ISO date strings. -/
def daysInMonth (y : Int) (m : Nat) : Nat :=
  if m = 1 ∨ m = 3 ∨ m = 5 ∨ m = 7 ∨ m = 8 ∨ m = 10 ∨ m = 12 then 31
  else if m = 4 ∨ m = 6 ∨ m = 9 ∨ m = 11 then 30
  else if m = 2 then (if (y % 4 = 0 ∧ y % 100 ≠ 0) ∨ y % 400 = 0 then 29 else 28)
  else 0

/-- Days since 1970-01-01 of the civil date `y-m-d`
(standard days-from-civil algorithm). -/
def daysFromCivil (y : Int) (m d : Nat) : Int :=
  let yAdj : Int := if m ≤ 2 then y - 1 else y
  let era : Int := yAdj.fdiv 400
  let yoe : Int := yAdj - era * 400
  let mp : Nat := (m + 9) % 12
  let doy : Int := (153 * (mp : Int) + 2).fdiv 5 + (d : Int) - 1
  let doe : Int := yoe * 365 + yoe.fdiv 4 - yoe.fdiv 100 + doy
  era * 146097 + doe - 719468

/-- Civil date `(y, m, d)` of a day number (inverse algorithm). -/
def civilFromDays (z : Int) : Int × Nat × Nat :=
  let z := z + 719468
  let era : Int := z.fdiv 146097
  let doe : Nat := (z - era * 146097).toNat
  let yoe : Nat := (doe - doe / 1460 + doe / 36524 - doe / 146096) / 365
  let y : Int := (yoe : Int) + era * 400
  let doy : Nat := doe - (365 * yoe + yoe / 4 - yoe / 100)
  let mp : Nat := (5 * doy + 2) / 153
  let d : Nat := doy - (153 * mp + 2) / 5 + 1
  let m : Nat := if mp < 10 then mp + 3 else mp - 9
  (if m ≤ 2 then y + 1 else y, m, d)

def pad2 (n : Nat) : String :=
  if n < 10 then "0" ++ toString n else toString n

def pad4 (n : Nat) : String :=
  if n < 10 then "000" ++ toString n
  else if n < 100 then "00" ++ toString n
  else if n < 1000 then "0" ++ toString n
  else toString n

/-- `date.toISOString().slice(0, 10)` on a UTC-midnight date, as a
function of its day number (modelled for years 0–9999, which covers
every date the calendar feed can carry). -/
def formatDay (z : Int) : String :=
  let c := civilFromDays z
  pad4 c.1.toNat ++ "-" ++ pad2 c.2.1 ++ "-" ++ pad2 c.2.2

/-- `new Date(s)` on an all-day `YYYY-MM-DD` calendar date: the day
number since the epoch (the Date itself is that day's UTC midnight, so
comparing and stepping by 24 h is comparing and stepping day numbers).
Returns `none` for an invalid date (JavaScript's `Invalid Date`, whose
comparisons are all false). -/
def parseDateOnly (s : String) : Option Int :=
  match s.toList with
  | [y1, y2, y3, y4, h1, m1, m2, h2, d1, d2] =>
    if h1 = '-' ∧ h2 = '-' ∧ y1.isDigit ∧ y2.isDigit ∧ y3.isDigit ∧ y4.isDigit ∧
        m1.isDigit ∧ m2.isDigit ∧ d1.isDigit ∧ d2.isDigit then
      let y : Int := (((digitVal y1 * 10 + digitVal y2) * 10 + digitVal y3) * 10 + digitVal y4 : Nat)
      let m := digitVal m1 * 10 + digitVal m2
      let d := digitVal d1 * 10 + digitVal d2
      if 1 ≤ m ∧ m ≤ 12 ∧ 1 ≤ d ∧ d ≤ daysInMonth y m then some (daysFromCivil y m d)
      else none
    else none
  | _ => none

-- ===========================================================================
-- Trip date detection (eventProcessor.ts, detectTripDates)
-- ===========================================================================

/-- `Set.add` on the model of `Set<string>` (insertion-ordered, no
duplicates). -/
def setAdd (acc : List String) (x : String) : List String :=
  if acc.contains x then acc else acc ++ [x]

/-- The stay-rule `while (current < end)` loop: one date string per day
from `cur` (inclusive) to `e` (exclusive). -/
def stayLoop (cur e : Int) : List String :=
  if cur < e then formatDay cur :: stayLoop (cur + 1) e else []
termination_by (e - cur).toNat
decreasing_by
  simp_wf
  omega

/-- `extractDateString`: the leading `YYYY-MM-DD` of an ISO string
(regex `^\d\x7b4\x7d-\d\x7b2\x7d-\d\x7b2\x7d`); throws on a mismatch. -/
def extractDateString (dateTimeStr : String) : Except String String :=
  match dateTimeStr.toList with
  | y1 :: y2 :: y3 :: y4 :: h1 :: m1 :: m2 :: h2 :: d1 :: d2 :: _ =>
    if y1.isDigit ∧ y2.isDigit ∧ y3.isDigit ∧ y4.isDigit ∧ h1 = '-' ∧
        m1.isDigit ∧ m2.isDigit ∧ h2 = '-' ∧ d1.isDigit ∧ d2.isDigit then
      Except.ok ⟨[y1, y2, y3, y4, h1, m1, m2, h2, d1, d2]⟩
    else
      Except.error ("Invalid date format: " ++ dateTimeStr)
  | _ => Except.error ("Invalid date format: " ++ dateTimeStr)

/-- One event's contribution to `detectTripDates` (the body of its
`for` loop): flight rule, then stay rule. A throw from
`extractDateString` propagates. -/
def detectTripDatesStep (homeAirports : List String) (acc : List String)
    (event : CalendarEvent) : Except String (List String) := do
  let summary := toLowerStr (jsOrStr event.summary "")
  let location := toLowerStr (jsOrStr event.location "")
  let isFlight := FLIGHT_KEYWORDS.any (fun kw => strContains summary kw)
  let acc ← (if isFlight then
      (if homeAirports.any (fun airport => strContains location (toLowerStr airport)) then do
        let flightDate ← extractDateString
          (jsOrStr event.start.dateTime (jsOrStr event.start.date ""))
        pure (if flightDate.isEmpty then acc else setAdd acc flightDate)
      else pure acc)
    else pure acc)
  let isStay := STAY_KEYWORDS.any (fun kw => strContains summary kw)
  if isStay then
    if truthy event.start.date ∧ truthy (event.«end».bind (fun x => x.date)) then
      match parseDateOnly (event.start.date.getD ""),
          parseDateOnly ((event.«end».bind (fun x => x.date)).getD "") with
      | some a, some b => pure ((stayLoop a b).foldl setAdd acc)
      | _, _ => pure acc
    else pure acc
  else pure acc

/-- `detectTripDates`: fold the step over all events, starting from the
empty set. -/
def detectTripDates (events : List CalendarEvent) (homeAirports : List String) :
    Except String (List String) :=
  events.foldlM (detectTripDatesStep homeAirports) []
-- ===========================================================================
-- Derived event creation (eventProcessor.ts)
-- ===========================================================================

/-- Parameters of `createDerivedEvent`. `startTime`/`endTime` are `Date`s
(epoch milliseconds). -/
structure DerivedEventParams where
  summary : String
  location : String
  startTime : Int
  endTime : Int
  timeZone : String
  colorId : String
  description : String
deriving Repr, DecidableEq

/-- `createDerivedEvent`; `formatDT` is the host's `formatDateTime`
(epoch milliseconds to a local ISO string). -/
def createDerivedEvent (formatDT : Int → String) (params : DerivedEventParams) : TransitEvent :=
  { summary := params.summary
    location := params.location
    colorId := params.colorId
    start := { dateTime := formatDT params.startTime, timeZone := params.timeZone }
    «end» := { dateTime := formatDT params.endTime, timeZone := params.timeZone }
    description := params.description }

/-- Display prefix for a travel mode (`WALK`/`DRIVE`, default `TRANSIT`). -/
def modePrefixOf (m : TravelMode) : String :=
  match m with
  | TravelMode.walk => "WALK"
  | TravelMode.driving => "DRIVE"
  | TravelMode.drive => "DRIVE"
  | TravelMode.transit => "TRANSIT"

/-- Description word for a travel mode. -/
def modeDescriptionOf (m : TravelMode) : String :=
  match m with
  | TravelMode.walk => "walking"
  | TravelMode.driving => "driving"
  | TravelMode.drive => "driving"
  | TravelMode.transit => "transit"

/-- `createTransitEvent`: forward leg, ending exactly at `eventStart`. -/
def createTransitEvent (formatDT : Int → String) (transitResult : RouteResult)
    (previousLocation previousLocationName destination : String) (eventStart : Int)
    (timeZone colorId : String) (modeOverride : Option TravelMode)
    (durationOverride : Option Nat) : TransitEvent :=
  let effectiveMode := modeOverride.getD transitResult.mode
  let effectiveDuration := durationOverride.getD transitResult.durationMinutes
  let destinationName := getLocationName destination
  let transitStartTime := eventStart - (effectiveDuration : Int) * MILLISECONDS_PER_MINUTE
  createDerivedEvent formatDT
    { summary := modePrefixOf effectiveMode ++ ": " ++ previousLocationName ++ " → " ++ destinationName
      location := previousLocation
      startTime := transitStartTime
      endTime := eventStart
      timeZone := timeZone
      colorId := colorId
      description := "Arriving at: " ++ destination ++ "\nTravel by " ++
        modeDescriptionOf effectiveMode ++ " (" ++ toString effectiveDuration ++ " min)" }

/-- `createReturnHomeEvent`: return leg, starting exactly at `lastEventEnd`. -/
def createReturnHomeEvent (formatDT : Int → String) (transitResult : RouteResult)
    (previousLocation previousLocationName homeAddress : String) (lastEventEnd : Int)
    (timeZone colorId : String) (modeOverride : Option TravelMode)
    (durationOverride : Option Nat) : TransitEvent :=
  let effectiveMode := modeOverride.getD transitResult.mode
  let effectiveDuration := durationOverride.getD transitResult.durationMinutes
  let returnEndTime := lastEventEnd + (effectiveDuration : Int) * MILLISECONDS_PER_MINUTE
  createDerivedEvent formatDT
    { summary := modePrefixOf effectiveMode ++ ": " ++ previousLocationName ++ " → Home"
      location := previousLocation
      startTime := lastEventEnd
      endTime := returnEndTime
      timeZone := timeZone
      colorId := colorId
      description := "Returning home: " ++ homeAddress ++ "\nTravel by " ++
        modeDescriptionOf effectiveMode ++ " (" ++ toString effectiveDuration ++ " min)" }

-- ===========================================================================
-- Orchestrator: one day's walk (eventProcessor.ts, calculateTransitEvents)
-- ===========================================================================

/-- The message `logSkip` sends to the progress callback. -/
def logSkipMsg (eventName reason : String) : String :=
  "  Skip \"" ++ eventName ++ "\": " ++ reason

/-- The message `logCreate` sends to the progress callback. -/
def logCreateMsg (summary : String) (durationMin : Option Nat) : String :=
  match durationMin with
  | some d => "  Create: " ++ summary ++ " (" ++ toString d ++ " min)"
  | none => "  Create: " ++ summary

/-- The per-day mutable state of the walk: current location, its display
name, and the end time of the previous processed event (for departure
time estimation). -/
structure DayState where
  previousLocation : String
  previousLocationName : String
  previousEventEnd : Option Int
deriving Repr, DecidableEq

/-- The external collaborators of the day walk, as pure functions:
`getTransit o d forceDrive departure` is the outcome of
`getTransitTime(o, d, forceDrive, departure)`, `walk o d` the outcome of
`getWalkingTime(o, d)`, `parseDT` the host's `parseDateTime`, and
`formatDT` the host's `formatDateTime`. -/
structure Env where
  getTransit : String → String → Bool → Int → Except JsError (Option RouteResult)
  walk : String → String → Except JsError (Option Nat)
  parseDT : String → Int
  formatDT : Int → String

/-- The single end-of-loop state update: location and display name move
to this event's location; `previousEventEnd` updates only when the event
has a truthy precise end. -/
def advanceState (env : Env) (st : DayState) (event : CalendarEvent)
    (location : String) : DayState :=
  { previousLocation := location
    previousLocationName := getLocationName location
    previousEventEnd :=
      if truthy (event.«end».bind (fun x => x.dateTime)) then
        some (env.parseDT ((event.«end».bind (fun x => x.dateTime)).getD ""))
      else st.previousEventEnd }

/-- `forceDrive` for the gap from the current location to `location`. -/
def gapForceDrive (settings : UserSettings) (st : DayState) (location : String) : Bool :=
  isLowTransitLocation st.previousLocation settings.lowTransitLocations ||
    isLowTransitLocation location settings.lowTransitLocations

/-- Departure time for the gap: the previous event's end when known,
otherwise one hour before this event's start. -/
def gapDeparture (st : DayState) (eventStartDate : Int) : Int :=
  match st.previousEventEnd with
  | some t => t
  | none => eventStartDate - 60 * MILLISECONDS_PER_MINUTE

/-- The route query made for the gap to `event` (the `getTransitTime`
call of the loop body). -/
def gapRoute (env : Env) (settings : UserSettings) (st : DayState)
    (event : CalendarEvent) : Except JsError (Option RouteResult) :=
  let location := event.location.getD ""
  let eventStartDate := env.parseDT (event.start.dateTime.getD "")
  env.getTransit st.previousLocation location (gapForceDrive settings st location)
    (gapDeparture st eventStartDate)

/-- One iteration of the day loop of `calculateTransitEvents`
(lines 543–649): returns the state after the event, the synthesized
events appended by this iteration, and the progress messages logged.
`allEvents` is the full fetched event list, which the overlap check
scans. -/
def processEvent (env : Env) (settings : UserSettings) (allEvents : List CalendarEvent)
    (st : DayState) (event : CalendarEvent) :
    DayState × List TransitEvent × List String :=
  let eventName := jsOrStr event.summary "(untitled)"
  let skipResult := shouldSkipEvent event settings
  if skipResult.shouldSkip then
    (st, [], [logSkipMsg eventName (skipReasonText skipResult.reason)])
  else if ¬ truthy event.location || ¬ truthy event.start.dateTime then
    (st, [], [])
  else
    let location := event.location.getD ""
    let timeZone := jsOrStr event.start.timeZone DEFAULT_TIMEZONE
    let eventStartDate := env.parseDT (event.start.dateTime.getD "")
    let st2 := advanceState env st event location
    if isSameLocation location st.previousLocation then
      (st2, [], [logSkipMsg eventName ("same location as " ++ st.previousLocationName)])
    else
      match gapRoute env settings st event with
      | Except.error (JsError.routesApi e) =>
        (st2, [], [logSkipMsg eventName ("API error: " ++ e.message)])
      | Except.error (JsError.other _) =>
        (st2, [], [])
      | Except.ok none =>
        (st2, [], [logSkipMsg eventName "no route found"])
      | Except.ok (some transitResult) =>
        match isValidTripDuration transitResult.durationMinutes st.previousLocation location
            settings.lowTransitLocations (env.walk st.previousLocation location) with
        | TripValidationResult.invalid reason =>
          (st2, [], [logSkipMsg eventName ("duration " ++ reason)])
        | TripValidationResult.valid mode walkMinutes =>
          let effectiveDuration := walkMinutes.getD transitResult.durationMinutes
          let transitStartTime := eventStartDate - (effectiveDuration : Int) * MILLISECONDS_PER_MINUTE
          if overlapsExistingTransit env.parseDT transitStartTime eventStartDate allEvents
              settings.transitColorId then
            (st2, [], [logSkipMsg eventName "overlaps existing transit"])
          else
            let transitEvent := createTransitEvent env.formatDT transitResult
              st.previousLocation st.previousLocationName location eventStartDate timeZone
              settings.transitColorId mode walkMinutes
            (st2, [transitEvent], [logCreateMsg transitEvent.summary (some effectiveDuration)])

/-- JavaScript `Array.prototype.findLast`. -/
def findLast (p : CalendarEvent → Bool) : List CalendarEvent → Option CalendarEvent
  | [] => none
  | x :: xs =>
    match findLast p xs with
    | some r => some r
    | none => if p x then some x else none

/-- A record of one `getTransitTime` route query made by the return-home
block, for stating that no query happens on a given path. -/
structure RouteQuery where
  origin : String
  destination : String
  forceDrive : Bool
  departure : Int
deriving Repr, DecidableEq

/-- The return-home block after a day's loop (lines 651–730): when the
day ends away from home, find the last processed event with a precise
start; if it has a truthy precise end, run the query → validate →
overlap → synthesize pipeline anchored at that end. Returns the events
appended, the messages logged, and the route queries made. -/
def returnHomeStep (env : Env) (settings : UserSettings)
    (allEvents dayEvents : List CalendarEvent) (st : DayState) :
    List TransitEvent × List String × List RouteQuery :=
  if isSameLocation st.previousLocation settings.homeAddress then ([], [], [])
  else
    match findLast
        (fun e => truthy e.start.dateTime && !(shouldSkipEvent e settings).shouldSkip)
        dayEvents with
    | none => ([], [], [])
    | some lastEvent =>
      if truthy (lastEvent.«end».bind (fun x => x.dateTime)) then
        let returnLabel := "Return home"
        let lastEventEnd := env.parseDT ((lastEvent.«end».bind (fun x => x.dateTime)).getD "")
        let forceDrive := isLowTransitLocation st.previousLocation settings.lowTransitLocations ||
          isLowTransitLocation settings.homeAddress settings.lowTransitLocations
        let q : RouteQuery := { origin := st.previousLocation
                                destination := settings.homeAddress
                                forceDrive := forceDrive
                                departure := lastEventEnd }
        match env.getTransit st.previousLocation settings.homeAddress forceDrive lastEventEnd with
        | Except.error (JsError.routesApi e) =>
          ([], [logSkipMsg returnLabel ("API error: " ++ e.message)], [q])
        | Except.error (JsError.other _) =>
          ([], [], [q])
        | Except.ok none =>
          ([], [logSkipMsg returnLabel "no route found"], [q])
        | Except.ok (some returnTransit) =>
          match isValidTripDuration returnTransit.durationMinutes st.previousLocation
              settings.homeAddress settings.lowTransitLocations
              (env.walk st.previousLocation settings.homeAddress) with
          | TripValidationResult.invalid reason =>
            ([], [logSkipMsg returnLabel ("duration " ++ reason)], [q])
          | TripValidationResult.valid mode walkMinutes =>
            let effectiveDuration := walkMinutes.getD returnTransit.durationMinutes
            let returnEndTime := lastEventEnd + (effectiveDuration : Int) * MILLISECONDS_PER_MINUTE
            if overlapsExistingTransit env.parseDT lastEventEnd returnEndTime allEvents
                settings.transitColorId then
              ([], [logSkipMsg returnLabel "overlaps existing transit"], [q])
            else
              let timeZone := jsOrStr (lastEvent.«end».bind (fun x => x.timeZone)) DEFAULT_TIMEZONE
              let returnEvent := createReturnHomeEvent env.formatDT returnTransit
                st.previousLocation st.previousLocationName settings.homeAddress lastEventEnd
                timeZone settings.transitColorId mode walkMinutes
              ([returnEvent], [logCreateMsg returnEvent.summary (some effectiveDuration)], [q])
      else ([], [], [])

/-- One whole day of `calculateTransitEvents`: fold the loop over the
day's events starting from home, then run the return-home block on the
final state. -/
def processDay (env : Env) (settings : UserSettings)
    (allEvents dayEvents : List CalendarEvent) : List TransitEvent × List String :=
  let init : DayState := { previousLocation := settings.homeAddress
                           previousLocationName := "Home"
                           previousEventEnd := none }
  let walkResult := dayEvents.foldl
    (fun acc e =>
      let step := processEvent env settings allEvents acc.1 e
      (step.1, acc.2.1 ++ step.2.1, acc.2.2 ++ step.2.2))
    (init, ([] : List TransitEvent), ([] : List String))
  let ret := returnHomeStep env settings allEvents dayEvents walkResult.1
  (walkResult.2.1 ++ ret.1, walkResult.2.2 ++ ret.2.1)
-- ===========================================================================
-- Concrete fixtures for evaluating the definitions
-- ===========================================================================

/-- Concrete settings used by the concrete evaluations below. -/
def fixtureSettings : UserSettings :=
  { homeAddress := "123 Home St, New York, NY"
    daysForward := 7
    transitColorId := "11"
    lowTransitLocations := []
    homeAirports := none
    detectTrips := false }

/-- A concrete processable office event. -/
def fixtureEvent : CalendarEvent :=
  { id := "w1"
    summary := some "Meeting"
    location := some "456 Office Ave, New York, NY"
    start := { dateTime := some "2026-01-15T10:00:00-05:00", date := none,
               timeZone := some "America/New_York" }
    «end» := some { dateTime := some "2026-01-15T11:00:00-05:00", date := none, timeZone := none }
    colorId := none
    conferenceData := false
    description := none }

/-- A concrete processable event with a precise start but no end. -/
def fixtureNoEndEvent : CalendarEvent :=
  { id := "w2"
    summary := some "Meeting"
    location := some "456 Office Ave, New York, NY"
    start := { dateTime := some "2026-01-15T10:00:00-05:00", date := none,
               timeZone := some "America/New_York" }
    «end» := none
    colorId := none
    conferenceData := false
    description := none }

/-- The day-start state at home. -/
def fixtureHomeState : DayState :=
  { previousLocation := "123 Home St, New York, NY"
    previousLocationName := "Home"
    previousEventEnd := none }

/-- A state away from home. -/
def fixtureAwayState : DayState :=
  { previousLocation := "456 Office Ave, New York, NY"
    previousLocationName := "456 Office Ave"
    previousEventEnd := some 100 }

/-- An environment whose route oracle finds no route. -/
def fixtureNoRouteEnv : Env :=
  { getTransit := fun _ _ _ _ => Except.ok none
    walk := fun _ _ => Except.ok none
    parseDT := fun _ => 0
    formatDT := fun _ => "" }

/-- An environment whose route oracle throws a plain (non-RoutesApiError)
exception, as `callRoutesApi` does for an address that is empty after
trimming. -/
def fixturePlainErrorEnv : Env :=
  { getTransit := fun _ _ _ _ => Except.error (JsError.other "Origin address cannot be empty")
    walk := fun _ _ => Except.ok none
    parseDT := fun _ => 0
    formatDT := fun _ => "" }

-- ===========================================================================
-- Claims
-- ===========================================================================

/-- C1 (counterexample). The claim says
`validate(12, "456 Main St", "789 Oak Ave", [])` with a walking query
returning 9 minutes yields accept with mode=walk and walkMinutes=9.
In the code, 12 ≥ `SHORT_TRIP_THRESHOLD_MINUTES` (10), so the validator
accepts as-is (no mode, no walkMinutes) and never reaches the
walkability branch. -/
theorem c1_validate12_not_walk :
    isValidTripDuration 12 "456 Main St" "789 Oak Ave" []
      (Except.ok (some 9)) = TripValidationResult.valid none none ∧
    TripValidationResult.valid none none ≠
      TripValidationResult.valid (some TravelMode.walk) (some 9) := by
  constructor
  · rfl
  · decide

/-- C1 (amended). Calling the duration validator with candidate 12
minutes, origin "456 Main St", destination "789 Oak Ave", and an empty
low-transit pattern list returns accept as-is (no mode override, no
walkMinutes), whatever the walking-time query would return — the
walking query is not consulted, because 12 is at or above the standard
threshold of 10 minutes. -/
theorem c1_validate12_accepts_as_is (walkQuery : Except JsError (Option Nat)) :
    isValidTripDuration 12 "456 Main St" "789 Oak Ave" [] walkQuery =
      TripValidationResult.valid none none := by
  rfl

/-- C2 (counterexample). The claim says every event whose colorId equals
the transit tag is skipped with reason ALREADY_TRANSIT_EVENT regardless
of other fields, in particular regardless of location. But the
no-location check runs first: an event with the transit colorId and no
location is skipped with reason NO_LOCATION instead. -/
theorem c2_transit_tag_without_location_is_no_location :
    (shouldSkipEvent
        { id := "e1", summary := some "Old transit", location := none,
          start := { dateTime := some "2026-01-15T10:00:00-05:00", date := none, timeZone := none },
          «end» := none, colorId := some "11", conferenceData := false, description := none }
        { homeAddress := "123 Home St", daysForward := 7, transitColorId := "11",
          lowTransitLocations := [], homeAirports := none, detectTrips := false }) =
      { shouldSkip := true, reason := some SkipReason.NO_LOCATION } ∧
    (some SkipReason.NO_LOCATION : Option SkipReason) ≠ some SkipReason.ALREADY_TRANSIT_EVENT := by
  constructor
  · rfl
  · decide

/-- C2 (amended). For every event that has a (truthy) location and whose
colorId equals the configured transit tag, the event filter returns skip
with reason ALREADY_TRANSIT_EVENT, regardless of the event's other
fields. -/
theorem c2_transit_tag_skips (event : CalendarEvent) (settings : UserSettings)
    (hloc : truthy event.location = true)
    (htag : event.colorId = some settings.transitColorId) :
    shouldSkipEvent event settings =
      { shouldSkip := true, reason := some SkipReason.ALREADY_TRANSIT_EVENT } := by
  unfold shouldSkipEvent
  simp [hloc, htag]

/-- C2 witness: a concrete located, transit-tagged event is skipped as
ALREADY_TRANSIT_EVENT. -/
theorem c2_transit_tag_skips_witness :
    shouldSkipEvent
        { id := "e2", summary := some "Old transit", location := some "456 Office Ave",
          start := { dateTime := some "2026-01-15T10:00:00-05:00", date := none, timeZone := none },
          «end» := none, colorId := some "11", conferenceData := false, description := none }
        { homeAddress := "123 Home St", daysForward := 7, transitColorId := "11",
          lowTransitLocations := [], homeAirports := none, detectTrips := false } =
      { shouldSkip := true, reason := some SkipReason.ALREADY_TRANSIT_EVENT } :=
  c2_transit_tag_skips _ _ (by decide) (by decide)

/-- C8 (counterexample). The claim says every `RouteResult` has a
positive `durationMinutes` for every non-negative seconds value the
oracle can report. But the oracle can report `"0s"`
(`parseDurationSeconds` accepts it), and `createRouteResult 0` yields
`durationMinutes = 0`, which is not positive. -/
theorem c8_zero_seconds_gives_zero_minutes :
    parseDurationSeconds "0s" = some 0 ∧
    (createRouteResult 0 0 TravelMode.transit).durationMinutes = 0 := by
  constructor
  · rfl
  · rfl

/-- C8 (amended). Every `RouteResult` built from a positive
whole-second duration has `durationMinutes` a positive integer, equal to
the duration rounded up to whole minutes
(`60·(m−1) < s ≤ 60·m`). For a reported duration of 0 seconds the minute
value is 0. -/
theorem c8_duration_minutes_positive (s d : Nat) (m : TravelMode) (hs : 0 < s) :
    0 < (createRouteResult s d m).durationMinutes ∧
    s ≤ 60 * (createRouteResult s d m).durationMinutes ∧
    60 * (createRouteResult s d m).durationMinutes < s + 60 := by
  unfold createRouteResult toMinutes SECONDS_PER_MINUTE
  simp only
  omega

/-- C8 witness: at 61 seconds the minute value is the positive, rounded-up
2 minutes. -/
theorem c8_duration_minutes_positive_witness :
    0 < (createRouteResult 61 0 TravelMode.transit).durationMinutes ∧
    61 ≤ 60 * (createRouteResult 61 0 TravelMode.transit).durationMinutes ∧
    60 * (createRouteResult 61 0 TravelMode.transit).durationMinutes < 61 + 60 :=
  c8_duration_minutes_positive 61 0 TravelMode.transit (by decide)
/-- C3. With `forceDrive = false` and a transit route available:
if its rounded-up minutes are at most 80, `getTransitTime` returns the
transit result directly, without performing the driving query;
otherwise the driving query is performed, and when both routes exist the
driving result is returned exactly when the driving minutes are strictly
below the transit minutes, with transit returned on ties. -/
theorem c3_transit_then_driving (tr : RawRoute)
    (driveCall : Except JsError (Option RawRoute)) :
    (toMinutes tr.durationSeconds ≤ 80 →
      getTransitTime false (Except.ok (some tr)) driveCall =
        Except.ok (some (createRouteResult tr.durationSeconds tr.distanceMeters
          TravelMode.transit), false)) ∧
    (80 < toMinutes tr.durationSeconds →
      ∀ dr : Option RawRoute, driveCall = Except.ok dr →
        ∃ r, getTransitTime false (Except.ok (some tr)) driveCall = Except.ok (r, true)) ∧
    (80 < toMinutes tr.durationSeconds →
      ∀ d : RawRoute, driveCall = Except.ok (some d) →
        getTransitTime false (Except.ok (some tr)) driveCall =
          Except.ok (some (if toMinutes d.durationSeconds < toMinutes tr.durationSeconds then
              createRouteResult d.durationSeconds d.distanceMeters TravelMode.driving
            else
              createRouteResult tr.durationSeconds tr.distanceMeters TravelMode.transit),
            true)) := by
  refine ⟨?_, ?_, ?_⟩
  · intro h
    have key : getTransitTime false (Except.ok (some tr)) driveCall =
        if toMinutes tr.durationSeconds ≤ TRANSIT_FALLBACK_THRESHOLD then
          Except.ok (some (createRouteResult tr.durationSeconds tr.distanceMeters
            TravelMode.transit), false)
        else
          match driveCall with
          | Except.error e => Except.error e
          | Except.ok driveResult => Except.ok (selectBestRoute (some tr) driveResult, true) := rfl
    rw [key, if_pos (by unfold TRANSIT_FALLBACK_THRESHOLD; omega)]
  · intro h dr hdr
    subst hdr
    have key : getTransitTime false (Except.ok (some tr)) (Except.ok dr) =
        if toMinutes tr.durationSeconds ≤ TRANSIT_FALLBACK_THRESHOLD then
          Except.ok (some (createRouteResult tr.durationSeconds tr.distanceMeters
            TravelMode.transit), false)
        else Except.ok (selectBestRoute (some tr) dr, true) := rfl
    rw [key, if_neg (by unfold TRANSIT_FALLBACK_THRESHOLD; omega)]
    exact ⟨_, rfl⟩
  · intro h d hd
    subst hd
    have key : getTransitTime false (Except.ok (some tr)) (Except.ok (some d)) =
        if toMinutes tr.durationSeconds ≤ TRANSIT_FALLBACK_THRESHOLD then
          Except.ok (some (createRouteResult tr.durationSeconds tr.distanceMeters
            TravelMode.transit), false)
        else Except.ok (selectBestRoute (some tr) (some d), true) := rfl
    have sel : selectBestRoute (some tr) (some d) =
        if toMinutes tr.durationSeconds ≤ TRANSIT_FALLBACK_THRESHOLD then
          some (createRouteResult tr.durationSeconds tr.distanceMeters TravelMode.transit)
        else if toMinutes d.durationSeconds < toMinutes tr.durationSeconds then
          some (createRouteResult d.durationSeconds d.distanceMeters TravelMode.driving)
        else
          some (createRouteResult tr.durationSeconds tr.distanceMeters TravelMode.transit) := rfl
    have hthresh : ¬ (toMinutes tr.durationSeconds ≤ TRANSIT_FALLBACK_THRESHOLD) := by
      unfold TRANSIT_FALLBACK_THRESHOLD
      omega
    rw [key, if_neg hthresh, sel, if_neg hthresh]
    by_cases hlt : toMinutes d.durationSeconds < toMinutes tr.durationSeconds
    · rw [if_pos hlt, if_pos hlt]
    · rw [if_neg hlt, if_neg hlt]

/-- C3 witness: a 50-minute transit route is returned directly with no
driving query; a 100-minute transit route with a 50-minute driving
alternative yields the driving result after querying driving. -/
theorem c3_transit_then_driving_witness :
    getTransitTime false (Except.ok (some { durationSeconds := 3000, distanceMeters := 100 }))
        (Except.ok (some { durationSeconds := 6000, distanceMeters := 200 })) =
      Except.ok (some (createRouteResult 3000 100 TravelMode.transit), false) ∧
    getTransitTime false (Except.ok (some { durationSeconds := 6000, distanceMeters := 100 }))
        (Except.ok (some { durationSeconds := 3000, distanceMeters := 200 })) =
      Except.ok (some (createRouteResult 3000 200 TravelMode.driving), true) := by
  constructor
  · exact (c3_transit_then_driving { durationSeconds := 3000, distanceMeters := 100 }
      (Except.ok (some { durationSeconds := 6000, distanceMeters := 200 }))).1 (by decide)
  · have h := (c3_transit_then_driving { durationSeconds := 6000, distanceMeters := 100 }
      (Except.ok (some { durationSeconds := 3000, distanceMeters := 200 }))).2.2 (by decide)
      { durationSeconds := 3000, distanceMeters := 200 } rfl
    rw [h]
    norm_num [toMinutes, SECONDS_PER_MINUTE]
/-- C7. For valid (non-empty after trimming) addresses, every transport
or protocol failure of a route-oracle call surfaces as a
`RoutesApiError`: network errors and timeouts (the abort of the
10-second request timer, `ROUTES_API_TIMEOUT_MS = 10000`) are
transient, HTTP responses with status ≥ 500 are transient, and HTTP 4xx
responses are non-transient. -/
theorem c7_error_classification (origin destination : String) (mode : ApiTravelMode)
    (ho : (trimStr origin).isEmpty = false) (hd : (trimStr destination).isEmpty = false) :
    (∀ msg, ∃ e, callRoutesApi origin destination mode (FetchOutcome.networkError msg) =
      Except.error (JsError.routesApi e) ∧ e.isTransient = true) ∧
    (∃ e, callRoutesApi origin destination mode FetchOutcome.abortError =
      Except.error (JsError.routesApi e) ∧ e.isTransient = true) ∧
    (∀ status body, 500 ≤ status →
      ∃ e, callRoutesApi origin destination mode (FetchOutcome.response status body) =
        Except.error (JsError.routesApi e) ∧ e.isTransient = true ∧ e.statusCode = status) ∧
    (∀ status body, 400 ≤ status → status ≤ 499 →
      ∃ e, callRoutesApi origin destination mode (FetchOutcome.response status body) =
        Except.error (JsError.routesApi e) ∧ e.isTransient = false ∧ e.statusCode = status) ∧
    ROUTES_API_TIMEOUT_MS = 10000 := by
  refine ⟨?_, ?_, ?_, ?_, rfl⟩
  · intro msg
    have key : callRoutesApi origin destination mode (FetchOutcome.networkError msg) =
        Except.error (JsError.routesApi
          { message := "Routes API network error: " ++ msg
            statusCode := 0
            isTransient := true
            context := some { origin := trimStr origin, destination := trimStr destination,
                              travelMode := modeString mode } }) := by
      simp [callRoutesApi, ho, hd]
    exact ⟨_, key, rfl⟩
  · have key : callRoutesApi origin destination mode FetchOutcome.abortError =
        Except.error (JsError.routesApi
          { message := "Routes API request timed out after " ++ toString ROUTES_API_TIMEOUT_MS ++ "ms"
            statusCode := 0
            isTransient := true
            context := some { origin := trimStr origin, destination := trimStr destination,
                              travelMode := modeString mode } }) := by
      simp [callRoutesApi, ho, hd]
    exact ⟨_, key, rfl⟩
  · intro status body h500
    have hcond : ¬ (200 ≤ status ∧ status ≤ 299) := by omega
    have key : callRoutesApi origin destination mode (FetchOutcome.response status body) =
        Except.error (JsError.routesApi
          { message := "Routes API error (" ++ toString status ++ "): " ++
              jsOrStr (body.error.bind (fun e => e.message)) "Unknown error"
            statusCode := status
            isTransient := decide (500 ≤ status)
            context := some { origin := trimStr origin, destination := trimStr destination,
                              travelMode := modeString mode } }) := by
      simp [callRoutesApi, ho, hd, hcond]
    exact ⟨_, key, by simp [h500], rfl⟩
  · intro status body h400 h499
    have hcond : ¬ (200 ≤ status ∧ status ≤ 299) := by omega
    have key : callRoutesApi origin destination mode (FetchOutcome.response status body) =
        Except.error (JsError.routesApi
          { message := "Routes API error (" ++ toString status ++ "): " ++
              jsOrStr (body.error.bind (fun e => e.message)) "Unknown error"
            statusCode := status
            isTransient := decide (500 ≤ status)
            context := some { origin := trimStr origin, destination := trimStr destination,
                              travelMode := modeString mode } }) := by
      simp [callRoutesApi, ho, hd, hcond]
    refine ⟨_, key, ?_, rfl⟩
    simp only [decide_eq_false_iff_not]
    omega

/-- C7 witness: for concrete addresses, a 503 response is a transient
`RoutesApiError` and a network error is transient. -/
theorem c7_error_classification_witness :
    ∃ e, callRoutesApi "123 Home St" "456 Office Ave" ApiTravelMode.TRANSIT
        (FetchOutcome.response 503 { routes := none, error := none }) =
      Except.error (JsError.routesApi e) ∧ e.isTransient = true ∧ e.statusCode = 503 :=
  (c7_error_classification "123 Home St" "456 Office Ave" ApiTravelMode.TRANSIT
    (by decide) (by decide)).2.2.1 503 { routes := none, error := none } (by decide)
/-- C5. The overlap check returns true exactly when some event in the
list is transit-tagged, has truthy precise start and end timestamps, and
satisfies `candidateStart < existingEnd ∧ candidateEnd > existingStart`;
consequently two spans sharing only a boundary instant do not overlap,
and the check is symmetric under swapping which of two spans plays the
candidate role. -/
theorem c5_overlap_characterization (parseDT : String → Int) (tag : String) :
    (∀ (s e : Int) (events : List CalendarEvent),
      overlapsExistingTransit parseDT s e events tag = true ↔
        ∃ ev ∈ events, ev.colorId = some tag ∧
          truthy ev.start.dateTime = true ∧
          truthy (ev.«end».bind (fun x => x.dateTime)) = true ∧
          s < parseDT ((ev.«end».bind (fun x => x.dateTime)).getD "") ∧
          e > parseDT (ev.start.dateTime.getD "")) ∧
    (∀ (s e : Int) (ev : CalendarEvent),
      e = parseDT (ev.start.dateTime.getD "") ∨
        s = parseDT ((ev.«end».bind (fun x => x.dateTime)).getD "") →
      overlapsExistingTransit parseDT s e [ev] tag = false) ∧
    (∀ (s1s s1e s2s s2e : String),
      s1s.isEmpty = false → s1e.isEmpty = false → s2s.isEmpty = false → s2e.isEmpty = false →
      overlapsExistingTransit parseDT (parseDT s2s) (parseDT s2e)
          [{ id := "a", summary := none, location := none,
             start := { dateTime := some s1s, date := none, timeZone := none },
             «end» := some { dateTime := some s1e, date := none, timeZone := none },
             colorId := some tag, conferenceData := false, description := none }] tag =
        overlapsExistingTransit parseDT (parseDT s1s) (parseDT s1e)
          [{ id := "b", summary := none, location := none,
             start := { dateTime := some s2s, date := none, timeZone := none },
             «end» := some { dateTime := some s2e, date := none, timeZone := none },
             colorId := some tag, conferenceData := false, description := none }] tag) := by
  refine ⟨?_, ?_, ?_⟩
  · intro s e events
    simp only [overlapsExistingTransit, List.any_eq_true, Bool.and_eq_true,
      decide_eq_true_eq, and_assoc]
  · intro s e ev hbound
    rcases hbound with h | h <;> simp [overlapsExistingTransit, h]
  · intro s1s s1e s2s s2e h1s h1e h2s h2e
    simp [overlapsExistingTransit, truthy, h1s, h1e, h2s, h2e, Bool.and_comm]
/-- C5 witness: with length-valued parsing, a candidate ending exactly
when the existing transit event starts does not overlap it. -/
theorem c5_overlap_characterization_witness :
    overlapsExistingTransit (fun s => (s.length : Int)) 0 2
      [{ id := "a", summary := none, location := none,
         start := { dateTime := some "ab", date := none, timeZone := none },
         «end» := some { dateTime := some "abcd", date := none, timeZone := none },
         colorId := some "11", conferenceData := false, description := none }] "11" = false :=
  (c5_overlap_characterization (fun s => (s.length : Int)) "11").2.1 0 2
    { id := "a", summary := none, location := none,
      start := { dateTime := some "ab", date := none, timeZone := none },
      «end» := some { dateTime := some "abcd", date := none, timeZone := none },
      colorId := some "11", conferenceData := false, description := none }
    (Or.inl (by decide))

/-- Membership in the `Set.add` model. -/
theorem mem_setAdd (acc : List String) (y x : String) :
    x ∈ setAdd acc y ↔ x ∈ acc ∨ x = y := by
  unfold setAdd
  by_cases h : acc.contains y = true
  · rw [if_pos h]
    have hy : y ∈ acc := by simpa using h
    constructor
    · exact Or.inl
    · rintro (hx | rfl)
      · exact hx
      · exact hy
  · rw [if_neg h]
    simp [List.mem_append]

/-- Membership after folding `setAdd` over a list. -/
theorem mem_foldl_setAdd (l acc : List String) (x : String) :
    x ∈ l.foldl setAdd acc ↔ x ∈ acc ∨ x ∈ l := by
  induction l generalizing acc with
  | nil => simp
  | cons y ys ih =>
    simp [List.foldl_cons, ih, mem_setAdd, or_assoc]

/-- Membership in the stay-rule loop: exactly the formatted days of the
half-open range `[a, b)`. -/
theorem mem_stayLoop (x : String) (a b : Int) :
    x ∈ stayLoop a b ↔ ∃ i : Nat, a + i < b ∧ x = formatDay (a + i) := by
  induction a, b using stayLoop.induct with
  | case1 a b hab ih =>
    rw [stayLoop, if_pos hab]
    simp only [List.mem_cons, ih]
    constructor
    · rintro (rfl | ⟨i, hi, rfl⟩)
      · exact ⟨0, by omega, by norm_num⟩
      · refine ⟨i + 1, by push_cast at hi ⊢; omega, ?_⟩
        congr 1
        push_cast
        ring
    · rintro ⟨i, hi, rfl⟩
      match i with
      | 0 => left; norm_num
      | Nat.succ j =>
        right
        refine ⟨j, by push_cast at hi ⊢; omega, ?_⟩
        congr 1
        push_cast
        ring
  | case2 a b hab =>
    rw [stayLoop, if_neg hab]
    simp only [List.not_mem_nil, false_iff, not_exists]
    intro i ⟨hi, _⟩
    omega
/-- C6 (counterexample). The claim says every stay-titled event with a
date-only start and end adds exactly the dates of `[startDate, endDate)`.
An event satisfying all of the claim's premises can also trigger the
outbound-flight rule: titled "Hotel flight to NYC" (stay keyword
"hotel" and flight keyword "flight to"), located at "JFK Airport"
(a home airport), with `start.date = end.date = "2025-03-10"`.
The range `[2025-03-10, 2025-03-10)` is empty, yet `detectTripDates`
produces the set `{"2025-03-10"}` — the flight rule's date. -/
theorem c6_stay_with_flight_adds_flight_date :
    detectTripDates
        [{ id := "f1", summary := some "Hotel flight to NYC", location := some "JFK Airport",
           start := { dateTime := none, date := some "2025-03-10", timeZone := none },
           «end» := some { dateTime := none, date := some "2025-03-10", timeZone := none },
           colorId := none, conferenceData := false, description := none }]
        DEFAULT_HOME_AIRPORTS = Except.ok ["2025-03-10"] ∧
    ¬ ∃ i : Nat, daysFromCivil 2025 3 10 + (i : Int) < daysFromCivil 2025 3 10 := by
  constructor
  · have hfl : ∃ kw ∈ FLIGHT_KEYWORDS,
        strContains (toLowerStr (jsOrStr (some "Hotel flight to NYC") "")) kw = true := by
      decide
    have hob : ∃ ap ∈ DEFAULT_HOME_AIRPORTS,
        strContains (toLowerStr (jsOrStr (some "JFK Airport") "")) (toLowerStr ap) = true := by
      decide
    have hst : ∃ kw ∈ STAY_KEYWORDS,
        strContains (toLowerStr (jsOrStr (some "Hotel flight to NYC") "")) kw = true := by
      decide
    have hex : extractDateString (jsOrStr none (jsOrStr (some "2025-03-10") "")) =
        Except.ok "2025-03-10" := rfl
    have hpa : parseDateOnly "2025-03-10" = some (daysFromCivil 2025 3 10) := rfl
    have hie : "2025-03-10".isEmpty = false := rfl
    have hloop : stayLoop (daysFromCivil 2025 3 10) (daysFromCivil 2025 3 10) = [] := by
      rw [stayLoop]
      simp
    unfold detectTripDates detectTripDatesStep
    simp [hfl, hob, hst, hex, hpa, hie, hloop, truthy]
    rfl
  · rintro ⟨i, hi⟩
    omega

/-- C6 (amended). For every event whose (lower-cased) title contains a
stay keyword, which has a truthy date-only start and end parsing to day
numbers `a` and `b`, and for which the outbound-flight rule does not
also fire (its title contains no flight keyword, or its location
matches no configured home airport), `detectTripDates` on that event
succeeds and its trip-date set contains exactly the calendar dates of
the half-open range `[startDate, endDate)` — the end date is
exclusive. -/
theorem c6_stay_dates (event : CalendarEvent) (airports : List String)
    (ss ds : String) (a b : Int)
    (hstay : STAY_KEYWORDS.any
      (fun kw => strContains (toLowerStr (jsOrStr event.summary "")) kw) = true)
    (hflight : FLIGHT_KEYWORDS.any
        (fun kw => strContains (toLowerStr (jsOrStr event.summary "")) kw) = false ∨
      airports.any
        (fun ap => strContains (toLowerStr (jsOrStr event.location "")) (toLowerStr ap)) = false)
    (hsd : event.start.date = some ss)
    (hed : event.«end».bind (fun x => x.date) = some ds)
    (hss : ss.isEmpty = false) (hds : ds.isEmpty = false)
    (hpa : parseDateOnly ss = some a) (hpb : parseDateOnly ds = some b) :
    ∃ L, detectTripDates [event] airports = Except.ok L ∧
      ∀ x, x ∈ L ↔ ∃ i : Nat, a + i < b ∧ x = formatDay (a + i) := by
  refine ⟨(stayLoop a b).foldl setAdd [], ?_, ?_⟩
  · have hst : ∃ kw ∈ STAY_KEYWORDS,
        strContains (toLowerStr (jsOrStr event.summary "")) kw = true := by
      simpa using hstay
    rcases hflight with hnoflight | hnotout
    · have hnf : ¬ ∃ kw ∈ FLIGHT_KEYWORDS,
          strContains (toLowerStr (jsOrStr event.summary "")) kw = true := by
        simpa using hnoflight
      unfold detectTripDates detectTripDatesStep
      simp [hnf, hst, hsd, hed, hss, hds, hpa, hpb, truthy]
      rfl
    · have hnob : ¬ ∃ ap ∈ airports,
          strContains (toLowerStr (jsOrStr event.location "")) (toLowerStr ap) = true := by
        simpa using hnotout
      unfold detectTripDates detectTripDatesStep
      simp [hnob, hst, hsd, hed, hss, hds, hpa, hpb, truthy]
      rfl
  · intro x
    rw [mem_foldl_setAdd, mem_stayLoop]
    simp
/-- C6 witness: a two-night "Hotel stay" event (no flight keyword) from
2025-03-10 to 2025-03-12 yields exactly the dates of
`[2025-03-10, 2025-03-12)`. -/
theorem c6_stay_dates_witness :
    ∃ L, detectTripDates
        [{ id := "s1", summary := some "Hotel stay", location := none,
           start := { dateTime := none, date := some "2025-03-10", timeZone := none },
           «end» := some { dateTime := none, date := some "2025-03-12", timeZone := none },
           colorId := none, conferenceData := false, description := none }]
        DEFAULT_HOME_AIRPORTS = Except.ok L ∧
      ∀ x, x ∈ L ↔ ∃ i : Nat, daysFromCivil 2025 3 10 + i < daysFromCivil 2025 3 12 ∧
        x = formatDay (daysFromCivil 2025 3 10 + i) :=
  c6_stay_dates
    { id := "s1", summary := some "Hotel stay", location := none,
      start := { dateTime := none, date := some "2025-03-10", timeZone := none },
      «end» := some { dateTime := none, date := some "2025-03-12", timeZone := none },
      colorId := none, conferenceData := false, description := none }
    DEFAULT_HOME_AIRPORTS "2025-03-10" "2025-03-12"
    (daysFromCivil 2025 3 10) (daysFromCivil 2025 3 12)
    (by decide) (Or.inl (by decide)) rfl rfl (by decide) (by decide) (by decide) (by decide)

/-- C4. One iteration of the day loop, for a processed (non-skipped)
event with a truthy location and precise start whose location differs
from the current location: whenever leg synthesis is rejected — the
route query returns no route, throws (a `RoutesApiError` or anything
else the `catch` swallows), the duration is invalid, or the candidate
span overlaps an existing transit event — no synthetic event is appended
for the gap, but the day state still advances to the event's location
(which the fold then uses as the origin of the next gap). -/
theorem c4_rejection_still_advances (env : Env) (settings : UserSettings)
    (allEvents : List CalendarEvent) (st : DayState) (event : CalendarEvent)
    (hskip : (shouldSkipEvent event settings).shouldSkip = false)
    (hloc : truthy event.location = true)
    (hdt : truthy event.start.dateTime = true)
    (hdiff : isSameLocation (event.location.getD "") st.previousLocation = false)
    (hrej :
      (∃ err, gapRoute env settings st event = Except.error err) ∨
      gapRoute env settings st event = Except.ok none ∨
      (∃ r reason, gapRoute env settings st event = Except.ok (some r) ∧
        isValidTripDuration r.durationMinutes st.previousLocation (event.location.getD "")
          settings.lowTransitLocations (env.walk st.previousLocation (event.location.getD "")) =
          TripValidationResult.invalid reason) ∨
      (∃ r mode walkMinutes, gapRoute env settings st event = Except.ok (some r) ∧
        isValidTripDuration r.durationMinutes st.previousLocation (event.location.getD "")
          settings.lowTransitLocations (env.walk st.previousLocation (event.location.getD "")) =
          TripValidationResult.valid mode walkMinutes ∧
        overlapsExistingTransit env.parseDT
          (env.parseDT (event.start.dateTime.getD "") -
            ((walkMinutes.getD r.durationMinutes : Nat) : Int) * MILLISECONDS_PER_MINUTE)
          (env.parseDT (event.start.dateTime.getD "")) allEvents settings.transitColorId =
          true)) :
    (processEvent env settings allEvents st event).2.1 = [] ∧
    (processEvent env settings allEvents st event).1 =
      advanceState env st event (event.location.getD "") := by
  unfold processEvent
  rcases hrej with ⟨err, herr⟩ | hnone | ⟨r, reason, hr, hinv⟩ | ⟨r, mode, walkMinutes, hr, hval, hov⟩
  · cases err with
    | routesApi e => simp [hskip, hloc, hdt, hdiff, herr]
    | other msg => simp [hskip, hloc, hdt, hdiff, herr]
  · simp [hskip, hloc, hdt, hdiff, hnone]
  · simp [hskip, hloc, hdt, hdiff, hr, hinv]
  · simp [hskip, hloc, hdt, hdiff, hr, hval, hov]
/-- C4 witness: with an oracle that finds no route, the concrete office
event appends nothing while the state advances to its location. -/
theorem c4_rejection_still_advances_witness :
    (processEvent fixtureNoRouteEnv fixtureSettings [] fixtureHomeState fixtureEvent).2.1 = [] ∧
    (processEvent fixtureNoRouteEnv fixtureSettings [] fixtureHomeState fixtureEvent).1 =
      advanceState fixtureNoRouteEnv fixtureHomeState fixtureEvent
        (fixtureEvent.location.getD "") :=
  c4_rejection_still_advances fixtureNoRouteEnv fixtureSettings [] fixtureHomeState fixtureEvent
    (by decide) (by decide) (by decide) (by decide) (Or.inr (Or.inl rfl))

/-- C9. If the exception raised during a gap's route query is not a
`RoutesApiError` (for example the plain input-validation error for an
address that is empty after trimming), the day loop catches and discards
it: no log message, no synthesized leg, and the state still advances to
the event's location. -/
theorem c9_non_api_error_discarded (env : Env) (settings : UserSettings)
    (allEvents : List CalendarEvent) (st : DayState) (event : CalendarEvent) (msg : String)
    (hskip : (shouldSkipEvent event settings).shouldSkip = false)
    (hloc : truthy event.location = true)
    (hdt : truthy event.start.dateTime = true)
    (hdiff : isSameLocation (event.location.getD "") st.previousLocation = false)
    (herr : gapRoute env settings st event = Except.error (JsError.other msg)) :
    processEvent env settings allEvents st event =
      (advanceState env st event (event.location.getD ""), [], []) := by
  unfold processEvent
  simp [hskip, hloc, hdt, hdiff, herr]

/-- C9 witness: with an oracle that throws the plain empty-address
error, the concrete office event yields no event, no log, and an
advanced state. -/
theorem c9_non_api_error_discarded_witness :
    processEvent fixturePlainErrorEnv fixtureSettings [] fixtureHomeState fixtureEvent =
      (advanceState fixturePlainErrorEnv fixtureHomeState fixtureEvent
        (fixtureEvent.location.getD ""), [], []) :=
  c9_non_api_error_discarded fixturePlainErrorEnv fixtureSettings [] fixtureHomeState
    fixtureEvent "Origin address cannot be empty"
    (by decide) (by decide) (by decide) (by decide) rfl

/-- C10. If the day ends away from home but the last non-skipped event
with a precise start has no truthy precise end, the return-home block
does nothing: no route query is made and nothing is appended or logged. -/
theorem c10_no_return_home_without_end (env : Env) (settings : UserSettings)
    (allEvents dayEvents : List CalendarEvent) (st : DayState) (lastEv : CalendarEvent)
    (hne : isSameLocation st.previousLocation settings.homeAddress = false)
    (hfind : findLast
      (fun e => truthy e.start.dateTime && !(shouldSkipEvent e settings).shouldSkip)
      dayEvents = some lastEv)
    (hnoend : truthy (lastEv.«end».bind (fun x => x.dateTime)) = false) :
    returnHomeStep env settings allEvents dayEvents st = ([], [], []) := by
  unfold returnHomeStep
  simp [hne, hfind, hnoend]

/-- C10 witness: a day whose only processed event has no precise end
produces no return-home query, event, or log. -/
theorem c10_no_return_home_without_end_witness :
    returnHomeStep fixtureNoRouteEnv fixtureSettings [fixtureNoEndEvent] [fixtureNoEndEvent]
      fixtureAwayState = ([], [], []) :=
  c10_no_return_home_without_end fixtureNoRouteEnv fixtureSettings [fixtureNoEndEvent]
    [fixtureNoEndEvent] fixtureAwayState fixtureNoEndEvent
    (by decide) (by decide) (by decide)
